import Mathlib

/-!
# DFU flasher of regolith: embedding and verified properties

Shallow embedding of `src/modules/dfu/flasher.go`.

* A byte is a `Nat` below 256; byte-typed Go arithmetic is written with an explicit `% 256`.
* A Go `int` is an `Int`.  File sizes and flash addresses stay far below `2 ^ 63`, so 64-bit
  wrap-around never occurs on them; the one sum formed from values the device reports, the
  field `sent`, is discussed at `blockLoop`.
* The USB device is a function from the history of control transfers and the current transfer
  to a byte count, an optional error and the bytes the device wrote into the buffer.  Every
  function that talks to the device threads the list of transfers issued so far.
* `log.Fatalf` logs and calls `os.Exit(1)`, so a `return` written after it is never reached;
  it is the outcome `Outcome.fatal`, which records the place and the session state at that
  moment.  A run-time fault of Go is `Outcome.panicked`.
* `time.Sleep` has no effect on the values computed and is left out.
-/

namespace Dfu

/-! ## Go primitives -/

/-- Run-time faults of Go that the embedded code can raise. -/
inductive GoPanic where
  | sliceBounds
  | indexRange
  | nilDeref
deriving DecidableEq, Repr

/-- Slice expression `xs[lo:hi]` with the bounds check of Go. -/
def goSlice (xs : List Nat) (lo hi : Int) : Except GoPanic (List Nat) :=
  if 0 ≤ lo ∧ lo ≤ hi ∧ hi ≤ (xs.length : Int) then
    .ok ((xs.drop lo.toNat).take (hi - lo).toNat)
  else
    .error .sliceBounds

/-- Index expression `xs[i]` with the bounds check of Go. -/
def goIndex (xs : List Nat) (i : Nat) : Except GoPanic Nat :=
  match xs[i]? with
  | some b => .ok b
  | none => .error .indexRange

/-- Conversion `string(b)` of a byte: the one-rune string. -/
def goString (b : Nat) : String := String.singleton (Char.ofNat b)

/-- Conversion `byte(x)` of an `int`: the low eight bits. -/
def goByte (x : Int) : Nat := (x % 256).toNat

/-- Shift `b << k` computed in the type `byte`. -/
def byteShl (b k : Nat) : Nat := (b <<< k) % 256

/-- Sum `a + b` computed in the type `byte`. -/
def byteAdd (a b : Nat) : Nat := (a + b) % 256

/-- Verb `%#x` of `fmt` on a non-negative `int`. -/
def fmtHex (v : Nat) : String := "0x" ++ String.mk (Nat.toDigits 16 v)

/-- Every element of the buffer is a byte. -/
def IsBytes (xs : List Nat) : Prop := ∀ b ∈ xs, b < 256

instance (xs : List Nat) : Decidable (IsBytes xs) := by
  unfold IsBytes; infer_instance

/-! ## Data model -/

structure FlashState where
  step : Int
  total : Int
  sent : Int
  bStatus : String
  bwPollTimeout : Int
  bState : String
  iString : String
  Complete : Bool
  Error : Option String
deriving DecidableEq, Repr

/-- The value `FlashState{}`. -/
def FlashState.zero : FlashState :=
  { step := 0, total := 0, sent := 0, bStatus := "", bwPollTimeout := 0, bState := "",
    iString := "", Complete := false, Error := none }

structure DeviceMetadata where
  Name : String
  ProductId : Int
deriving DecidableEq, Repr

structure VendorMetadata where
  Name : String
  Id : Int
  Devices : List DeviceMetadata
deriving DecidableEq, Repr

def SupportedVendors : List VendorMetadata :=
  [ { Name := "zsa", Id := 0x3297,
      Devices := [ { Name := "plank", ProductId := 0x6060 },
                   { Name := "ergodox", ProductId := 0x1307 },
                   { Name := "moonlander", ProductId := 0x1969 } ] },
    { Name := "halfkay", Id := 0x16C0,
      Devices := [ { Name := "halfkay", ProductId := 0x0478 } ] },
    { Name := "dfu", Id := 0x0483,
      Devices := [ { Name := "dfu", ProductId := 0xdf11 } ] } ]

def dfuSuffixVendorID : Int := 0x83
def dfuSuffixProductID : Int := 0x11
def dfuSuffixLength : Nat := 16
def planckBlockSize : Nat := 2048
def planckStartAddress : Int := 0x08000000
def setAddress : Int := 0
def eraseAddress : Int := 1
def eraseFlash : Int := 2

/-- Descriptor of an attached USB device (`gousb.DeviceDesc`): the two 16-bit ids. -/
structure DeviceDesc where
  Vendor : Nat
  Product : Nat
deriving DecidableEq, Repr

structure DeviceStatus where
  isDfu : Bool
deriving DecidableEq, Repr

structure FoundDevice where
  Status : DeviceStatus
  Metadata : DeviceMetadata
  Description : DeviceDesc
deriving DecidableEq, Repr

/-! ## USB transport -/

/-- One call `dev.Control(rType, request, val, idx, data)`. -/
structure Ctl where
  rType : Nat
  request : Nat
  val : Nat
  idx : Nat
  data : List Nat
deriving DecidableEq, Repr

/-- What a control transfer gives back: the byte count, the error (absent on success) and, for
a control-in transfer, the bytes the device wrote at the start of the buffer. -/
structure Resp where
  n : Int
  err : Option String
  data : List Nat
deriving DecidableEq, Repr

/-- Behaviour of an opened device: the transfers issued before (oldest first) and the current
transfer determine the response. -/
abbrev Transport := List Ctl → Ctl → Resp

/-- Result of a function with signature `(err error)` that updates the session state and talks
to the device. -/
structure Ret where
  err : Option String
  status : FlashState
  trace : List Ctl

/-- Buffer after a control-in transfer: the device data overwrites the start of the buffer. -/
def fillBuf (buf data : List Nat) : List Nat :=
  data.take buf.length ++ buf.drop data.length

/-- The status query `dev.Control(161, 3, 0, 0, make([]byte, 6))`. -/
def statusQuery : Ctl := ⟨161, 3, 0, 0, List.replicate 6 0⟩

/-- The expression `int((0xff & buf[3] << 16) | (0xff & buf[2]) | 0xff&buf[1])`, all of whose
operands have type `byte`. -/
def pollTimeoutOf (buf : List Nat) : Int :=
  ((byteShl (0xff &&& buf.getD 3 0) 16 ||| (0xff &&& buf.getD 2 0) ||| (0xff &&& buf.getD 1 0) : Nat) : Int)

def dfuGetStatus (dev : Transport) (status : FlashState) (tr : List Ctl) : Ret :=
  let r := dev tr statusQuery
  let buf := fillBuf (List.replicate 6 0) r.data
  let tr1 := tr ++ [statusQuery]
  match r.err with
  | some e => ⟨some e, status, tr1⟩
  | none =>
    if r.n = 6 then
      ⟨none,
       { status with
         bStatus := goString (buf.getD 0 0)
         bwPollTimeout := pollTimeoutOf buf
         bState := goString (buf.getD 4 0)
         iString := goString (buf.getD 5 0) },
       tr1⟩
    else
      ⟨none, status, tr1⟩

/-- The loop `for i := 0; i < 3; i++` of `dfuPollTimeout`, with `k` rounds left. -/
def dfuPollLoop (dev : Transport) : Nat → Ret → Ret
  | 0, acc => acc
  | k + 1, acc =>
    dfuPollLoop dev k (dfuGetStatus dev acc.status acc.trace)

def dfuPollTimeout (dev : Transport) (status : FlashState) (tr : List Ctl) : Ret :=
  dfuPollLoop dev 3 ⟨none, status, tr⟩

/-- The buffer `dfuCommand` builds for a command and an address. -/
def commandBuf (addr : Int) (command : Int) : List Nat :=
  let buf : List Nat := []
  let buf :=
    if command = setAddress then
      [0x21, goByte (Int.land addr 0xff), goByte (Int.land (addr >>> (8 : Nat)) 0xff),
       goByte (Int.land (addr >>> (16 : Nat)) 0xff), goByte (Int.land (addr >>> (24 : Nat)) 0xff)]
    else buf
  let buf :=
    if command = eraseAddress then
      [0x41, goByte (Int.land addr 0xff), goByte (Int.land (addr >>> (8 : Nat)) 0xff),
       goByte (Int.land (addr >>> (16 : Nat)) 0xff), goByte (Int.land (addr >>> (24 : Nat)) 0xff)]
    else buf
  let buf := if command = eraseFlash then [0x41] else buf
  buf

/-- Model of `dfuCommand`.  The line `_, err = dev.Control(33, 1, 0, 0, buf)` issues the
transfer; the next line, `err = dfuPollTimeout(dev, status)`, assigns `err` again, so the
response to the transfer is never inspected. -/
def dfuCommand (dev : Transport) (addr : Int) (command : Int) (status : FlashState)
    (tr : List Ctl) : Ret :=
  let c : Ctl := ⟨33, 1, 0, 0, commandBuf addr command⟩
  let _r := dev tr c
  let p := dfuPollTimeout dev status (tr ++ [c])
  match p.err with
  | some e => ⟨some e, p.status, p.trace⟩
  | none => ⟨none, p.status, p.trace⟩

def dfuClearStatus (dev : Transport) (tr : List Ctl) : Option String × List Ctl :=
  let c : Ctl := ⟨33, 4, 2, 0, []⟩
  ((dev tr c).err, tr ++ [c])

def dfuReboot (dev : Transport) (status : FlashState) (tr : List Ctl) : Ret :=
  let r1 := dfuPollTimeout dev status tr
  let c : Ctl := ⟨33, 1, 2, 0, []⟩
  dfuGetStatus dev r1.status (r1.trace ++ [c])

/-! ## Firmware image -/

/-- The three results of `extractSuffix`. -/
structure SuffixResult where
  hasSuffix : Bool
  data : List Nat
  err : Option String
deriving DecidableEq, Repr

def extractSuffix (fileData : List Nat) : Except GoPanic SuffixResult := do
  let fileSize : Int := fileData.length
  let suffix ← goSlice fileData (fileSize - dfuSuffixLength) fileSize
  let s10 ← goIndex suffix 10
  let s9 ← goIndex suffix 9
  let s8 ← goIndex suffix 8
  let ext := goString s10 ++ goString s9 ++ goString s8
  if ext = "DFU" then
    let s5 ← goIndex suffix 5
    let s4 ← goIndex suffix 4
    let vid : Int := byteAdd (byteShl s5 8) s4
    let s3 ← goIndex suffix 3
    let s2 ← goIndex suffix 2
    let pid : Int := byteAdd (byteShl s3 8) s2
    if vid ≠ dfuSuffixVendorID ∨ pid ≠ dfuSuffixProductID then
      let message := "Invalid vendor or product id, expected " ++
        fmtHex dfuSuffixVendorID.toNat ++ ":" ++ fmtHex dfuSuffixProductID.toNat ++
        " got " ++ fmtHex vid.toNat ++ ":" ++ fmtHex pid.toNat
      return ⟨true, fileData, some message⟩
    let data ← goSlice fileData 0 (fileSize - dfuSuffixLength)
    return ⟨true, data, none⟩
  return ⟨false, fileData, none⟩

/-! ## Flash session -/

/-- The calls of `log.Fatalf` in `execFlash`, in source order. -/
inductive FatalSite where
  | openFirmware
  | extractSuffix
  | unexpectedFileType
  | notInDfuMode
  | claimInterface
  | clearStatus
  | eraseFlash
  | eraseAddressCmd
  | setAddressCmd
  | sendFirmware
  | reboot
deriving DecidableEq, Repr

/-- How a call of `execFlash` ends. -/
inductive Outcome where
  | returned (st : FlashState)
  | fatal (site : FatalSite) (st : FlashState)
  | panicked (p : GoPanic)
deriving DecidableEq, Repr

/-- How the block loop ends: it runs through, or the process ends inside it, at a call of
`log.Fatalf` or at a run-time fault. -/
inductive LoopResult where
  | finished (st : FlashState)
  | fatal (site : FatalSite) (st : FlashState)
  | panicked (p : GoPanic)
deriving DecidableEq, Repr

/-- The loop `for page := 0; page < fileSize; page += planckBlockSize` of `execFlash`, entered
with the current `page`, session state and transfers issued so far.

The statement `dfuStatus.sent += bytes` adds in a 64-bit `int`; here the sum is taken in `Int`.
The two agree as long as the running sum of the reported byte counts stays within 64 bits.  The
properties of `execFlash` proved below that mention `sent` concern sessions in which every data
write reports the length of its chunk, or zero, so that the sum never exceeds the length of the
image; nothing is stated about `sent` for other byte counts. -/
def blockLoop (dev : Transport) (firmwareData : List Nat) (fileSize : Nat) (page : Nat)
    (dfuStatus : FlashState) (tr : List Ctl) : LoopResult × List Ctl :=
  if _h : page < fileSize then
    let addr : Int := planckStartAddress + page
    let chunckSize : Nat :=
      if page + planckBlockSize > fileSize then fileSize - page else planckBlockSize
    let r1 := dfuCommand dev addr eraseAddress dfuStatus tr
    match r1.err with
    | some _ => (.fatal .eraseAddressCmd r1.status, r1.trace)
    | none =>
      let r2 := dfuCommand dev addr setAddress r1.status r1.trace
      match r2.err with
      | some _ => (.fatal .setAddressCmd r2.status, r2.trace)
      | none =>
        match goSlice firmwareData page (page + chunckSize) with
        | .error p => (.panicked p, r2.trace)
        | .ok buf =>
          let c : Ctl := ⟨33, 1, 2, 0, buf⟩
          let r := dev r2.trace c
          match r.err with
          | some _ => (.fatal .sendFirmware r2.status, r2.trace ++ [c])
          | none =>
            blockLoop dev firmwareData fileSize (page + planckBlockSize)
              { r2.status with sent := r2.status.sent + r.n } (r2.trace ++ [c])
  else
    (.finished dfuStatus, tr)
termination_by fileSize - page
decreasing_by
  simp only [planckBlockSize]
  omega

/-- The USB host as `execFlash` meets it: `OpenDeviceWithVIDPID` yields a device or `nil` (its
error is ignored by the code), and `device.Config(1)` may fail. -/
structure Usb where
  device : Option Transport
  configErr : Option String

/-- Model of `execFlash`.  `file` is the result of `ioutil.ReadFile(firmwarePath)`.  The result
is how the call ends and the control transfers it issued, in order. -/
def execFlash (file : Except String (List Nat)) (deviceData : FoundDevice) (usb : Usb) :
    Outcome × List Ctl :=
  let dfuStatus : FlashState := { FlashState.zero with Complete := false }
  match file with
  | .error _ => (.fatal .openFirmware dfuStatus, [])
  | .ok fileData =>
    match extractSuffix fileData with
    | .error p => (.panicked p, [])
    | .ok ⟨hasSuffix, firmwareData, err⟩ =>
      match err with
      | some _ => (.fatal .extractSuffix dfuStatus, [])
      | none =>
        if hasSuffix then (.fatal .unexpectedFileType dfuStatus, [])
        else if !deviceData.Status.isDfu then (.fatal .notInDfuMode dfuStatus, [])
        else
          match usb.device with
          | none => (.panicked .nilDeref, [])
          | some dev =>
            match usb.configErr with
            | some _ => (.fatal .claimInterface dfuStatus, [])
            | none =>
              let fileSize : Nat := firmwareData.length
              let dfuStatus := { dfuStatus with total := fileSize }
              let (err, tr) := dfuClearStatus dev []
              match err with
              | some _ => (.fatal .clearStatus dfuStatus, tr)
              | none =>
                let dfuStatus := { dfuStatus with step := 1 }
                let r := dfuCommand dev 0 eraseFlash dfuStatus tr
                match r.err with
                | some _ => (.fatal .eraseFlash r.status, r.trace)
                | none =>
                  match blockLoop dev firmwareData fileSize 0 r.status r.trace with
                  | (.fatal site st, tr) => (.fatal site st, tr)
                  | (.panicked p, tr) => (.panicked p, tr)
                  | (.finished dfuStatus, tr) =>
                    let r := dfuReboot dev dfuStatus tr
                    match r.err with
                    | some _ => (.fatal .reboot r.status, r.trace)
                    | none =>
                      (.returned { r.status with step := 2, Complete := true }, r.trace)

/-! ## Device scan -/

/-- Inner loop of `getMetdata` over the devices of one vendor. -/
def findDevice (desc : DeviceDesc) : List DeviceMetadata → Option DeviceMetadata
  | [] => none
  | device :: rest =>
    if (desc.Product : Int) = device.ProductId % 65536 then some device
    else findDevice desc rest

/-- Outer loop of `getMetdata` over a vendor table. -/
def getMetdataIn (desc : DeviceDesc) : List VendorMetadata → Option DeviceMetadata
  | [] => none
  | vendor :: rest =>
    if (desc.Vendor : Int) = vendor.Id % 65536 then
      match findDevice desc vendor.Devices with
      | some device => some device
      | none => getMetdataIn desc rest
    else getMetdataIn desc rest

/-- Model of `getMetdata`: `none` stands for the `nil` pointer returned with the error. -/
def getMetdata (desc : DeviceDesc) : Option DeviceMetadata :=
  getMetdataIn desc SupportedVendors

/-- Inner loop of `isSupported`. -/
def anyDevice (desc : DeviceDesc) : List DeviceMetadata → Bool
  | [] => false
  | device :: rest =>
    if (desc.Product : Int) = device.ProductId % 65536 then true
    else anyDevice desc rest

/-- Outer loop of `isSupported` over a vendor table. -/
def isSupportedIn (desc : DeviceDesc) : List VendorMetadata → Bool
  | [] => false
  | vendor :: rest =>
    if (desc.Vendor : Int) = vendor.Id % 65536 then
      if anyDevice desc vendor.Devices then true else isSupportedIn desc rest
    else isSupportedIn desc rest

def isSupported (desc : DeviceDesc) : Bool :=
  isSupportedIn desc SupportedVendors

/-- Loop of `ScanDevices` over the opened devices. -/
def scanLoop : List DeviceDesc → Except GoPanic (List FoundDevice)
  | [] => .ok []
  | desc :: rest =>
    match getMetdata desc with
    | none => .error .nilDeref
    | some metadata =>
      match scanLoop rest with
      | .error p => .error p
      | .ok devices =>
        .ok ({ Status := { isDfu := metadata.Name = "dfu" }, Description := desc,
               Metadata := metadata } :: devices)

/-- Model of `ScanDevices`; `attached` lists the descriptors of the devices on the bus, of which
`OpenDevices(isSupported)` opens those the predicate accepts. -/
def ScanDevices (attached : List DeviceDesc) : Except GoPanic (List FoundDevice) :=
  scanLoop (attached.filter isSupported)

/-! ## Notions used to state the properties -/

/-- Byte at offset `i` of the 16-byte trailer of a buffer. -/
def trailerByte (fileData : List Nat) (i : Nat) : Nat :=
  (fileData.drop (fileData.length - dfuSuffixLength)).getD i 0

/-- The message of the error `extractSuffix` builds for observed ids `vid` and `pid`. -/
def mismatchMessage (vid pid : Nat) : String :=
  "Invalid vendor or product id, expected " ++ fmtHex dfuSuffixVendorID.toNat ++ ":" ++
    fmtHex dfuSuffixProductID.toNat ++ " got " ++ fmtHex vid ++ ":" ++ fmtHex pid


/-- The trailer tag read by `extractSuffix`: the bytes at trailer offsets 10, 9, 8 are
`'D'`, `'F'`, `'U'`. -/
def HasDfuTag (fileData : List Nat) : Prop :=
  trailerByte fileData 10 = 68 ∧ trailerByte fileData 9 = 70 ∧ trailerByte fileData 8 = 85

instance (fileData : List Nat) : Decidable (HasDfuTag fileData) := by
  unfold HasDfuTag; infer_instance

/-- A three-byte payload followed by the suffix of a genuine STM32 DFU file: product id
`0xdf11` (bytes 2, 3), vendor id `0x0483` (bytes 4, 5), tag `"UFD"`, length 16. -/
def stm32DfuImage : List Nat :=
  [1, 2, 3] ++ [0x00, 0x22, 0x11, 0xdf, 0x83, 0x04, 0x1a, 0x01, 0x55, 0x46, 0x44, 0x10,
    0xde, 0xad, 0xbe, 0xef]

/-- A three-byte payload followed by a suffix with product id `0x0011` (bytes 2, 3) and vendor
id `0x1283` (bytes 4, 5): only the high byte of the vendor id differs from the expected pair. -/
def highByteDfuImage : List Nat :=
  [1, 2, 3] ++ [0x00, 0x22, 0x11, 0x00, 0x83, 0x12, 0x1a, 0x01, 0x55, 0x46, 0x44, 0x10,
    0xde, 0xad, 0xbe, 0xef]

/-- A two-byte payload followed by a suffix whose 16-bit ids are `0x0083` and `0x0011`. -/
def matchingDfuImage : List Nat :=
  [9, 9] ++ [0x00, 0x22, 0x11, 0x00, 0x83, 0x00, 0x1a, 0x01, 0x55, 0x46, 0x44, 0x10,
    0xde, 0xad, 0xbe, 0xef]

/-- A raw image of sixteen zero bytes; it carries no tag. -/
def rawImage16 : List Nat := List.replicate 16 0

/-- A device found in bootloader mode. -/
def bootloaderDevice : FoundDevice :=
  { Status := { isDfu := true }, Metadata := { Name := "dfu", ProductId := 0xdf11 },
    Description := { Vendor := 0x0483, Product := 0xdf11 } }

/-- A keyboard found running its application firmware. -/
def keyboardDevice : FoundDevice :=
  { Status := { isDfu := false }, Metadata := { Name := "moonlander", ProductId := 0x1969 },
    Description := { Vendor := 0x3297, Product := 0x1969 } }

/-- A device whose control-out transfers all fail while every status query succeeds with six
bytes. -/
def failingOutDevice : Transport := fun _ c =>
  if c.rType = 33 then ⟨0, some "libusb: i/o error", []⟩ else ⟨6, none, [0, 0, 0, 0, 5, 0]⟩

/-- Little-endian bytes of a 32-bit address. -/
def le32 (a : Nat) : List Nat :=
  [a % 256, a / 256 % 256, a / 65536 % 256, a / 16777216 % 256]

/-- Number of rounds of the block loop for a payload of `L` bytes: `L / 2048` rounded up. -/
def blockCount (L : Nat) : Nat := (L + planckBlockSize - 1) / planckBlockSize

/-- The `k`-th chunk of a payload: the bytes at offsets `k * 2048` up to, and excluding,
`min ((k + 1) * 2048) L`, where `L` is the length of the payload. -/
def chunk (payload : List Nat) (k : Nat) : List Nat :=
  (payload.drop (k * planckBlockSize)).take
    (min ((k + 1) * planckBlockSize) payload.length - k * planckBlockSize)

/-- The data-write transfer `dev.Control(33, 1, 2, 0, buf)`. -/
def dataWrite (buf : List Nat) : Ctl := ⟨0x21, 0x01, 2, 0, buf⟩

/-- The transfers of round `k` of the block loop: the erase-address command for the address
`0x08000000 + k * 2048` and its three status queries, the set-address command for the same
address and its three status queries, and the data write of the `k`-th chunk. -/
def blockRequests (payload : List Nat) (k : Nat) : List Ctl :=
  ⟨0x21, 0x01, 0, 0, 0x41 :: le32 (0x08000000 + k * 2048)⟩ :: List.replicate 3 statusQuery ++
    ⟨0x21, 0x01, 0, 0, 0x21 :: le32 (0x08000000 + k * 2048)⟩ :: List.replicate 3 statusQuery ++
    [dataWrite (chunk payload k)]

/-- Recognises the data-write transfers among those of the block loop: value 2. -/
def isDataWrite (c : Ctl) : Bool := c.rType == 0x21 && c.request == 0x01 && c.val == 2

/-- A device every transfer of which succeeds and reports the length of the buffer as byte
count; a status query answers with six bytes. -/
def okDevice : Transport := fun _ c => ⟨c.data.length, none, [0, 1, 0, 0, 5, 0]⟩

/-- A payload of 5000 bytes. -/
def payload5000 : List Nat := List.replicate 5000 7

/-- A successful status response of six bytes. -/
def statusDevice : Transport := fun _ _ => ⟨6, none, [0, 0x10, 0x01, 0x02, 5, 0]⟩
/-! ## Facts about the Go primitives and the trailer -/

theorem char_ofNat_eq_iff (n c : Nat) (hc : c < 256) (h0 : 0 < c) :
    Char.ofNat n = Char.ofNat c ↔ n = c := by
  constructor
  · intro h
    have h2 := congrArg Char.toNat h
    unfold Char.ofNat at h2
    have hcv : c.isValidChar := by left; omega
    simp only [hcv, dif_pos] at h2
    split at h2
    · simpa [Char.toNat, Char.ofNatAux, UInt32.toNat] using h2
    · simp [Char.toNat, Char.ofNatAux, UInt32.toNat] at h2
      omega
  · rintro rfl; rfl

theorem tag_eq_iff (a b c : Nat) :
    goString a ++ goString b ++ goString c = "DFU" ↔ a = 68 ∧ b = 70 ∧ c = 85 := by
  have hD : ('D' : Char) = Char.ofNat 68 := rfl
  have hF : ('F' : Char) = Char.ofNat 70 := rfl
  have hU : ('U' : Char) = Char.ofNat 85 := rfl
  simp only [goString, String.singleton, String.ext_iff, String.data_append]
  simp [hD, hF, hU, char_ofNat_eq_iff]

theorem goSlice_trailer (fileData : List Nat) (h : 16 ≤ fileData.length) :
    goSlice fileData ((fileData.length : Int) - (dfuSuffixLength : Nat)) fileData.length
      = .ok (fileData.drop (fileData.length - dfuSuffixLength)) := by
  unfold goSlice dfuSuffixLength
  have h1 : ((fileData.length : Int) - (16 : Nat)).toNat = fileData.length - 16 := by omega
  have h2 : ((fileData.length : Int) - ((fileData.length : Int) - (16 : Nat))).toNat = 16 := by omega
  rw [if_pos (by omega), h1, h2, List.take_of_length_le (by simp; omega)]

theorem goSlice_body (fileData : List Nat) (h : 16 ≤ fileData.length) :
    goSlice fileData 0 ((fileData.length : Int) - (dfuSuffixLength : Nat))
      = .ok (fileData.take (fileData.length - dfuSuffixLength)) := by
  unfold goSlice dfuSuffixLength
  have h1 : ((fileData.length : Int) - (16 : Nat) - 0).toNat = fileData.length - 16 := by omega
  rw [if_pos (by omega), h1]
  simp

theorem goIndex_trailer (fileData : List Nat) (h : 16 ≤ fileData.length) (i : Nat) (hi : i < 16) :
    goIndex (fileData.drop (fileData.length - dfuSuffixLength)) i = .ok (trailerByte fileData i) := by
  unfold goIndex trailerByte dfuSuffixLength
  have hl : i < (fileData.drop (fileData.length - 16)).length := by simp; omega
  rw [List.getD_eq_getElem?_getD, List.getElem?_eq_getElem hl]
  rfl

theorem byteAdd_byteShl (hi lo : Nat) : byteAdd (byteShl hi 8) lo = lo % 256 := by
  unfold byteAdd byteShl
  rw [Nat.shiftLeft_eq]
  omega

/-- What `extractSuffix` computes on a buffer of at least 16 bytes, by cases on the trailer. -/
theorem extractSuffix_eq (fileData : List Nat) (h : 16 ≤ fileData.length) :
    extractSuffix fileData = .ok (
      if HasDfuTag fileData then
        if trailerByte fileData 4 % 256 ≠ 0x83 ∨ trailerByte fileData 2 % 256 ≠ 0x11 then
          ⟨true, fileData,
            some (mismatchMessage (trailerByte fileData 4 % 256) (trailerByte fileData 2 % 256))⟩
        else ⟨true, fileData.take (fileData.length - dfuSuffixLength), none⟩
      else ⟨false, fileData, none⟩) := by
  unfold extractSuffix
  simp only [bind, Except.bind, pure, Except.pure, goSlice_trailer fileData h,
    goIndex_trailer fileData h _ (by decide : (10:Nat) < 16),
    goIndex_trailer fileData h _ (by decide : (9:Nat) < 16),
    goIndex_trailer fileData h _ (by decide : (8:Nat) < 16),
    goIndex_trailer fileData h _ (by decide : (5:Nat) < 16),
    goIndex_trailer fileData h _ (by decide : (4:Nat) < 16),
    goIndex_trailer fileData h _ (by decide : (3:Nat) < 16),
    goIndex_trailer fileData h _ (by decide : (2:Nat) < 16),
    goSlice_body fileData h, tag_eq_iff, byteAdd_byteShl, ← HasDfuTag.eq_1]
  by_cases htag : HasDfuTag fileData
  · rw [if_pos htag, if_pos htag]
    by_cases hid : trailerByte fileData 4 % 256 ≠ 0x83 ∨ trailerByte fileData 2 % 256 ≠ 0x11
    · have hid2 : ((trailerByte fileData 4 % 256 : Nat) : Int) ≠ dfuSuffixVendorID ∨
          ((trailerByte fileData 2 % 256 : Nat) : Int) ≠ dfuSuffixProductID := by
        unfold dfuSuffixVendorID dfuSuffixProductID; omega
      rw [if_pos hid, if_pos hid2]
      have e : ∀ x : Nat, ((x : Int) % 256).toNat = x % 256 := by intro x; omega
      simp [mismatchMessage, e]
    · have hid2 : ¬ (((trailerByte fileData 4 % 256 : Nat) : Int) ≠ dfuSuffixVendorID ∨
          ((trailerByte fileData 2 % 256 : Nat) : Int) ≠ dfuSuffixProductID) := by
        unfold dfuSuffixVendorID dfuSuffixProductID; omega
      rw [if_neg hid, if_neg hid2]
  · rw [if_neg htag, if_neg htag]

theorem extractSuffix_short (fileData : List Nat) (h : fileData.length < 16) :
    extractSuffix fileData = .error .sliceBounds := by
  unfold extractSuffix goSlice dfuSuffixLength
  simp only [bind, Except.bind]
  rw [if_neg (by omega)]

/-! ## Firmware image validation -/

/-- C1, evaluated on the code: on the empty buffer, and on a buffer of fifteen bytes, the slice
`fileData[fileSize-16 : fileSize]` of `extractSuffix` is out of range and the call faults; it
does not return `hasSuffix = false` with the unchanged buffer.  `execFlash` on such a file
ends with that fault. -/
theorem extractSuffix_faults_on_short_buffer :
    extractSuffix [] = .error .sliceBounds ∧
      extractSuffix (List.replicate 15 0) = .error .sliceBounds ∧
      ∀ (deviceData : FoundDevice) (usb : Usb),
        execFlash (.ok (List.replicate 15 0)) deviceData usb = (.panicked .sliceBounds, []) := by
  refine ⟨extractSuffix_short [] (by decide),
    extractSuffix_short (List.replicate 15 0) (by decide), ?_⟩
  intro deviceData usb
  simp only [execFlash, extractSuffix_short (List.replicate 15 0) (by decide)]

/-- C2, evaluated on the code: the image `highByteDfuImage` carries the tag and the 16-bit
vendor id `0x1283`, different from the expected `0x83`, yet `extractSuffix` returns no error:
it strips the suffix and reports `hasSuffix = true`.  The same happens on `stm32DfuImage`,
whose 16-bit ids `0x0483` and `0xdf11` both differ from the expected pair. -/
theorem extractSuffix_accepts_mismatching_ids :
    (IsBytes highByteDfuImage ∧ 16 ≤ highByteDfuImage.length ∧ HasDfuTag highByteDfuImage ∧
      trailerByte highByteDfuImage 4 + 256 * trailerByte highByteDfuImage 5 = 0x1283 ∧
      trailerByte highByteDfuImage 2 + 256 * trailerByte highByteDfuImage 3 = 0x0011 ∧
      extractSuffix highByteDfuImage = .ok ⟨true, [1, 2, 3], none⟩) ∧
    (IsBytes stm32DfuImage ∧ 16 ≤ stm32DfuImage.length ∧ HasDfuTag stm32DfuImage ∧
      trailerByte stm32DfuImage 4 + 256 * trailerByte stm32DfuImage 5 = 0x0483 ∧
      trailerByte stm32DfuImage 2 + 256 * trailerByte stm32DfuImage 3 = 0xdf11 ∧
      extractSuffix stm32DfuImage = .ok ⟨true, [1, 2, 3], none⟩) := by
  refine ⟨⟨by decide, by decide, by decide, by decide, by decide, ?_⟩,
    ⟨by decide, by decide, by decide, by decide, by decide, ?_⟩⟩
  · rw [extractSuffix_eq _ (by decide), if_pos (by decide), if_neg (by decide)]
    rfl
  · rw [extractSuffix_eq _ (by decide), if_pos (by decide), if_neg (by decide)]
    rfl

/-- C3: on a buffer of at least 16 bytes whose trailer carries the tag and whose 16-bit vendor
and product ids equal `0x83` and `0x11`, `extractSuffix` returns `hasSuffix = true`, no error
and the buffer without its last 16 bytes, a prefix of the buffer; `execFlash` then ends at the
unexpected-file-type exit without having issued a control transfer, whatever the device. -/
theorem extractSuffix_matching_suffix (fileData : List Nat) (h : 16 ≤ fileData.length)
    (htag : HasDfuTag fileData)
    (hvid : trailerByte fileData 4 + 256 * trailerByte fileData 5 = 0x83)
    (hpid : trailerByte fileData 2 + 256 * trailerByte fileData 3 = 0x11) :
    extractSuffix fileData = .ok ⟨true, fileData.take (fileData.length - 16), none⟩ ∧
      fileData.take (fileData.length - 16) ++ fileData.drop (fileData.length - 16) = fileData ∧
      (fileData.drop (fileData.length - 16)).length = 16 ∧
      ∀ (deviceData : FoundDevice) (usb : Usb),
        execFlash (.ok fileData) deviceData usb =
          (.fatal .unexpectedFileType FlashState.zero, []) := by
  have hx : extractSuffix fileData = .ok ⟨true, fileData.take (fileData.length - 16), none⟩ := by
    rw [extractSuffix_eq fileData h, if_pos htag, if_neg (by omega)]
    rfl
  refine ⟨hx, List.take_append_drop _ _, by simp; omega, ?_⟩
  intro deviceData usb
  simp only [execFlash, hx]
  rfl

theorem extractSuffix_matching_suffix_witness :
    (16 ≤ matchingDfuImage.length ∧ HasDfuTag matchingDfuImage ∧
      trailerByte matchingDfuImage 4 + 256 * trailerByte matchingDfuImage 5 = 0x83 ∧
      trailerByte matchingDfuImage 2 + 256 * trailerByte matchingDfuImage 3 = 0x11) ∧
    (extractSuffix matchingDfuImage =
        .ok ⟨true, matchingDfuImage.take (matchingDfuImage.length - 16), none⟩ ∧
      matchingDfuImage.take (matchingDfuImage.length - 16) ++
        matchingDfuImage.drop (matchingDfuImage.length - 16) = matchingDfuImage ∧
      (matchingDfuImage.drop (matchingDfuImage.length - 16)).length = 16 ∧
      ∀ (deviceData : FoundDevice) (usb : Usb),
        execFlash (.ok matchingDfuImage) deviceData usb =
          (.fatal .unexpectedFileType FlashState.zero, [])) :=
  ⟨⟨by decide, by decide, by decide, by decide⟩,
    extractSuffix_matching_suffix matchingDfuImage (by decide) (by decide) (by decide)
      (by decide)⟩

/-- C4: on a buffer of at least 16 bytes whose trailer bytes at offsets 10, 9, 8 do not spell
the tag, `extractSuffix` returns `hasSuffix = false`, no error and the whole buffer, so the
payload has the length of the buffer. -/
theorem extractSuffix_without_tag (fileData : List Nat) (h : 16 ≤ fileData.length)
    (htag : ¬ HasDfuTag fileData) :
    ∃ r : SuffixResult, extractSuffix fileData = .ok r ∧ r.hasSuffix = false ∧ r.err = none ∧
      r.data = fileData ∧ r.data.length = fileData.length := by
  refine ⟨⟨false, fileData, none⟩, ?_, rfl, rfl, rfl, rfl⟩
  rw [extractSuffix_eq fileData h, if_neg htag]

theorem extractSuffix_without_tag_witness :
    (16 ≤ rawImage16.length ∧ ¬ HasDfuTag rawImage16) ∧
    ∃ r : SuffixResult, extractSuffix rawImage16 = .ok r ∧ r.hasSuffix = false ∧
      r.err = none ∧ r.data = rawImage16 ∧ r.data.length = rawImage16.length :=
  ⟨⟨by decide, by decide⟩, extractSuffix_without_tag rawImage16 (by decide) (by decide)⟩

/-! ## Status queries and commands -/

theorem dfuGetStatus_trace (dev : Transport) (status : FlashState) (tr : List Ctl) :
    (dfuGetStatus dev status tr).trace = tr ++ [statusQuery] := by
  simp only [dfuGetStatus]
  split
  · rfl
  · split <;> rfl

theorem dfuPollLoop_trace (dev : Transport) (k : Nat) (acc : Ret) :
    (dfuPollLoop dev k acc).trace = acc.trace ++ List.replicate k statusQuery := by
  induction k generalizing acc with
  | zero => simp [dfuPollLoop]
  | succ k ih =>
    rw [dfuPollLoop, ih, dfuGetStatus_trace, List.replicate_succ]
    simp

theorem dfuPollTimeout_trace (dev : Transport) (status : FlashState) (tr : List Ctl) :
    (dfuPollTimeout dev status tr).trace = tr ++ List.replicate 3 statusQuery := by
  unfold dfuPollTimeout
  rw [dfuPollLoop_trace]

theorem dfuCommand_trace (dev : Transport) (addr command : Int) (status : FlashState)
    (tr : List Ctl) :
    (dfuCommand dev addr command status tr).trace =
      tr ++ ⟨33, 1, 0, 0, commandBuf addr command⟩ :: List.replicate 3 statusQuery := by
  unfold dfuCommand
  simp only
  split <;> simp [dfuPollTimeout_trace]

theorem dfuCommand_err (dev : Transport) (addr command : Int) (status : FlashState)
    (tr : List Ctl) :
    (dfuCommand dev addr command status tr).err =
      (dfuPollTimeout dev status (tr ++ [⟨33, 1, 0, 0, commandBuf addr command⟩])).err := by
  unfold dfuCommand
  simp only
  split <;> simp_all

theorem dfuGetStatus_err (dev : Transport) (status : FlashState) (tr : List Ctl) :
    (dfuGetStatus dev status tr).err = (dev tr statusQuery).err := by
  simp only [dfuGetStatus]
  split
  · simp_all
  · split <;> simp_all

/-- With a device none of whose transfers fails, the status poll reports no error. -/
theorem dfuPollLoop_err_none (dev : Transport) (hok : ∀ h c, (dev h c).err = none) (k : Nat)
    (acc : Ret) (hacc : acc.err = none) : (dfuPollLoop dev k acc).err = none := by
  induction k generalizing acc with
  | zero => exact hacc
  | succ k ih =>
    rw [dfuPollLoop]
    exact ih _ (by rw [dfuGetStatus_err]; exact hok _ _)

theorem dfuCommand_err_none (dev : Transport) (hok : ∀ h c, (dev h c).err = none)
    (addr command : Int) (status : FlashState) (tr : List Ctl) :
    (dfuCommand dev addr command status tr).err = none := by
  rw [dfuCommand_err]
  exact dfuPollLoop_err_none dev hok 3 _ rfl

theorem byte_and_ff (b : Nat) : 0xff &&& b = b % 256 := by
  rw [Nat.and_comm]
  exact Nat.and_pow_two_sub_one_eq_mod b 8

theorem byteShl_16 (b : Nat) : byteShl b 16 = 0 := by
  unfold byteShl
  rw [Nat.shiftLeft_eq]
  omega

theorem pollTimeoutOf_eq (b0 b1 b2 b3 b4 b5 : Nat) (h1 : b1 < 256) (h2 : b2 < 256) :
    pollTimeoutOf [b0, b1, b2, b3, b4, b5] = ((b1 ||| b2 : Nat) : Int) := by
  unfold pollTimeoutOf
  simp only [List.getD_cons_succ, List.getD_cons_zero, byte_and_ff, byteShl_16,
    Nat.mod_eq_of_lt h1, Nat.mod_eq_of_lt h2, Nat.zero_or]
  rw [Nat.lor_comm]

theorem goByte_land_shift (n k : Nat) :
    goByte (Int.land ((n : Int) >>> k) 0xff) = n / 2 ^ k % 256 := by
  have h1 : ((n : Int) >>> k) = ((n >>> k : Nat) : Int) := rfl
  have h2 : Int.land ((n >>> k : Nat) : Int) 0xff = ((n >>> k &&& 0xff : Nat) : Int) := rfl
  rw [h1, h2, Nat.and_comm, byte_and_ff, Nat.shiftRight_eq_div_pow]
  unfold goByte
  omega

theorem goByte_land (n : Nat) : goByte (Int.land (n : Int) 0xff) = n % 256 := by
  have h := goByte_land_shift n 0
  simpa using h

theorem commandBuf_eraseAddress (n : Nat) : commandBuf n eraseAddress = 0x41 :: le32 n := by
  unfold commandBuf
  have h8 := goByte_land_shift n 8
  have h16 := goByte_land_shift n 16
  have h24 := goByte_land_shift n 24
  simp only [eraseAddress, setAddress, eraseFlash, le32, h8, h16, h24, goByte_land]
  simp

theorem commandBuf_setAddress (n : Nat) : commandBuf n setAddress = 0x21 :: le32 n := by
  unfold commandBuf
  have h8 := goByte_land_shift n 8
  have h16 := goByte_land_shift n 16
  have h24 := goByte_land_shift n 24
  simp only [eraseAddress, setAddress, eraseFlash, le32, h8, h16, h24, goByte_land]
  simp

theorem commandBuf_eraseFlash (addr : Int) : commandBuf addr eraseFlash = [0x41] := by
  unfold commandBuf
  simp [eraseAddress, setAddress, eraseFlash]

/-! ## Properties of the status query and of the commands -/

/-- C10: when the status query succeeds with the six bytes `b0 .. b5`, `dfuGetStatus` stores as
`bwPollTimeout` the bitwise OR of `b1` and `b2`.  The stored value lies in `0 .. 255`, is the
same whatever `b3` is, and equals the 24-bit little-endian value
`b1 + 256 * b2 + 65536 * b3` only when `b2` and `b3` are both zero. -/
theorem dfuGetStatus_stores_or_of_two_bytes (dev : Transport) (status : FlashState)
    (tr : List Ctl) (b0 b1 b2 b3 b4 b5 : Nat)
    (hbytes : IsBytes [b0, b1, b2, b3, b4, b5])
    (hresp : dev tr statusQuery = ⟨6, none, [b0, b1, b2, b3, b4, b5]⟩) :
    (dfuGetStatus dev status tr).status.bwPollTimeout = ((b1 ||| b2 : Nat) : Int) ∧
      0 ≤ (dfuGetStatus dev status tr).status.bwPollTimeout ∧
      (dfuGetStatus dev status tr).status.bwPollTimeout ≤ 255 ∧
      (∀ (dev2 : Transport) (c3 : Nat), c3 < 256 →
        dev2 tr statusQuery = ⟨6, none, [b0, b1, b2, c3, b4, b5]⟩ →
        (dfuGetStatus dev2 status tr).status.bwPollTimeout =
          (dfuGetStatus dev status tr).status.bwPollTimeout) ∧
      ((dfuGetStatus dev status tr).status.bwPollTimeout =
          (b1 : Int) + 256 * b2 + 65536 * b3 ↔ b2 = 0 ∧ b3 = 0) := by
  have h1 : b1 < 256 := hbytes b1 (by simp)
  have h2 : b2 < 256 := hbytes b2 (by simp)
  have key : ∀ (d : Transport) (c3 : Nat), d tr statusQuery = ⟨6, none, [b0, b1, b2, c3, b4, b5]⟩ →
      (dfuGetStatus d status tr).status.bwPollTimeout = ((b1 ||| b2 : Nat) : Int) := by
    intro d c3 hd
    simp only [dfuGetStatus, hd, fillBuf]
    simp only [List.length_replicate, List.length_cons, List.length_nil, List.drop_replicate]
    exact pollTimeoutOf_eq b0 b1 b2 c3 b4 b5 h1 h2
  have hlt : b1 ||| b2 < 2 ^ 8 := Nat.or_lt_two_pow h1 h2
  have hor : b2 = 0 → b1 ||| b2 = b1 := by rintro rfl; simp
  rw [key dev b3 hresp]
  refine ⟨rfl, by omega, by omega, ?_, ?_⟩
  · intro dev2 c3 _ h
    exact key dev2 c3 h
  · constructor
    · intro h
      omega
    · rintro ⟨hb2, hb3⟩
      have := hor hb2
      omega

theorem dfuGetStatus_stores_or_of_two_bytes_witness :
    (IsBytes [0, 0x10, 0x01, 0x02, 5, 0] ∧
      statusDevice [] statusQuery = ⟨6, none, [0, 0x10, 0x01, 0x02, 5, 0]⟩) ∧
    ((dfuGetStatus statusDevice FlashState.zero []).status.bwPollTimeout =
        ((0x10 ||| 0x01 : Nat) : Int) ∧
      0 ≤ (dfuGetStatus statusDevice FlashState.zero []).status.bwPollTimeout ∧
      (dfuGetStatus statusDevice FlashState.zero []).status.bwPollTimeout ≤ 255 ∧
      (∀ (dev2 : Transport) (c3 : Nat), c3 < 256 →
        dev2 [] statusQuery = ⟨6, none, [0, 0x10, 0x01, c3, 5, 0]⟩ →
        (dfuGetStatus dev2 FlashState.zero []).status.bwPollTimeout =
          (dfuGetStatus statusDevice FlashState.zero []).status.bwPollTimeout) ∧
      ((dfuGetStatus statusDevice FlashState.zero []).status.bwPollTimeout =
          ((0x10 : Nat) : Int) + 256 * ((0x01 : Nat) : Int) + 65536 * ((0x02 : Nat) : Int) ↔
        0x01 = 0 ∧ 0x02 = 0)) :=
  ⟨⟨by decide, rfl⟩,
    dfuGetStatus_stores_or_of_two_bytes statusDevice FlashState.zero [] 0 0x10 0x01 0x02 5 0
      (by decide) rfl⟩

/-- C9: for an address `a` with `0 ≤ a < 2 ^ 32`, `dfuCommand` with the erase-address
(resp. set-address) command issues first the control-out transfer
`(0x21, 0x01, value 0, index 0)` with a payload of five bytes: `0x41` (resp. `0x21`) followed by
four bytes `b1 .. b4` with `b1 + 256 * b2 + 65536 * b3 + 16777216 * b4 = a`; the three status
queries follow. -/
theorem dfuCommand_sends_little_endian_address (dev : Transport) (status : FlashState)
    (tr : List Ctl) (a : Int) (h0 : 0 ≤ a) (h32 : a < 2 ^ 32) :
    ∃ b1 b2 b3 b4 : Nat, b1 < 256 ∧ b2 < 256 ∧ b3 < 256 ∧ b4 < 256 ∧
      (b1 : Int) + 256 * b2 + 65536 * b3 + 16777216 * b4 = a ∧
      (dfuCommand dev a eraseAddress status tr).trace =
        tr ++ ⟨0x21, 0x01, 0, 0, [0x41, b1, b2, b3, b4]⟩ :: List.replicate 3 statusQuery ∧
      (dfuCommand dev a setAddress status tr).trace =
        tr ++ ⟨0x21, 0x01, 0, 0, [0x21, b1, b2, b3, b4]⟩ :: List.replicate 3 statusQuery := by
  obtain ⟨n, rfl⟩ := Int.eq_ofNat_of_zero_le h0
  have hn : n < 4294967296 := by omega
  refine ⟨n % 256, n / 256 % 256, n / 65536 % 256, n / 16777216 % 256,
    Nat.mod_lt _ (by decide), Nat.mod_lt _ (by decide), Nat.mod_lt _ (by decide),
    Nat.mod_lt _ (by decide), by omega, ?_, ?_⟩
  · rw [dfuCommand_trace, commandBuf_eraseAddress]
    rfl
  · rw [dfuCommand_trace, commandBuf_setAddress]
    rfl

theorem dfuCommand_sends_little_endian_address_witness :
    ((0 : Int) ≤ 0x08000800 ∧ (0x08000800 : Int) < 2 ^ 32) ∧
    ∃ b1 b2 b3 b4 : Nat, b1 < 256 ∧ b2 < 256 ∧ b3 < 256 ∧ b4 < 256 ∧
      (b1 : Int) + 256 * b2 + 65536 * b3 + 16777216 * b4 = 0x08000800 ∧
      (dfuCommand failingOutDevice 0x08000800 eraseAddress FlashState.zero []).trace =
        [] ++ ⟨0x21, 0x01, 0, 0, [0x41, b1, b2, b3, b4]⟩ :: List.replicate 3 statusQuery ∧
      (dfuCommand failingOutDevice 0x08000800 setAddress FlashState.zero []).trace =
        [] ++ ⟨0x21, 0x01, 0, 0, [0x21, b1, b2, b3, b4]⟩ :: List.replicate 3 statusQuery :=
  ⟨⟨by decide, by decide⟩,
    dfuCommand_sends_little_endian_address failingOutDevice FlashState.zero [] 0x08000800
      (by decide) (by decide)⟩

/-- C6, evaluated on the code: with the device `failingOutDevice` the control-out transfer of
`dfuCommand` fails with a transport error, for every command, address, session state and
history, while the status queries succeed; `dfuCommand` nevertheless returns no error. -/
theorem dfuCommand_drops_control_error (addr command : Int) (status : FlashState)
    (tr : List Ctl) :
    (failingOutDevice tr ⟨33, 1, 0, 0, commandBuf addr command⟩).err =
        some "libusb: i/o error" ∧
      (dfuCommand failingOutDevice addr command status tr).err = none := by
  refine ⟨rfl, ?_⟩
  rw [dfuCommand_err]
  simp only [dfuPollTimeout, dfuPollLoop, dfuGetStatus_err]
  rfl

/-! ## The block loop -/

theorem goSlice_nat (xs : List Nat) (page c : Nat) (h : page + c ≤ xs.length) :
    goSlice xs (page : Int) ((page : Int) + (c : Int)) = .ok ((xs.drop page).take c) := by
  unfold goSlice
  have h1 : ((page : Int) + (c : Int) - (page : Int)).toNat = c := by omega
  rw [if_pos (by omega), h1, Int.toNat_ofNat]

/-- The size of the chunk the block loop cuts at offset `page`. -/
theorem chunckSize_le (fileSize page : Nat) (h : page < fileSize) :
    page + (if page + planckBlockSize > fileSize then fileSize - page else planckBlockSize)
      ≤ fileSize := by
  unfold planckBlockSize
  split <;> omega

theorem blockLoop_done (dev : Transport) (fd : List Nat) (fileSize page : Nat)
    (st : FlashState) (tr : List Ctl) (h : ¬ page < fileSize) :
    blockLoop dev fd fileSize page st tr = (.finished st, tr) := by
  rw [blockLoop, dif_neg h]

theorem chunk_length (payload : List Nat) (k : Nat) :
    (chunk payload k).length = min planckBlockSize (payload.length - k * planckBlockSize) := by
  unfold chunk planckBlockSize
  simp only [List.length_take, List.length_drop]
  omega

theorem chunk_eq_of_lt (payload : List Nat) (k : Nat) (h : k * planckBlockSize < payload.length) :
    (payload.drop (k * planckBlockSize)).take
      (if k * planckBlockSize + planckBlockSize > payload.length
        then payload.length - k * planckBlockSize else planckBlockSize) = chunk payload k := by
  unfold chunk
  congr 1
  unfold planckBlockSize at *
  split <;> omega

theorem blockLoop_trace_from (dev : Transport) (payload : List Nat)
    (hok : ∀ h c, (dev h c).err = none) :
    ∀ (m k : Nat) (st : FlashState) (tr : List Ctl),
      blockCount payload.length - k = m →
      ∃ st2, blockLoop dev payload payload.length (k * planckBlockSize) st tr =
        (.finished st2, tr ++ (List.range' k m).flatMap (blockRequests payload)) := by
  intro m
  induction m with
  | zero =>
    intro k st tr hm
    have hge : ¬ k * planckBlockSize < payload.length := by
      unfold blockCount planckBlockSize at *
      omega
    exact ⟨st, by rw [blockLoop_done _ _ _ _ _ _ hge]; simp⟩
  | succ m ih =>
    intro k st tr hm
    have hlt : k * planckBlockSize < payload.length := by
      unfold blockCount planckBlockSize at *
      omega
    rw [blockLoop, dif_pos hlt]
    simp only [dfuCommand_err_none dev hok, hok]
    rw [goSlice_nat payload _ _ (chunckSize_le payload.length _ hlt), chunk_eq_of_lt payload k hlt]
    simp only
    have hk : k * planckBlockSize + planckBlockSize = (k + 1) * planckBlockSize := by ring
    rw [hk]
    obtain ⟨st2, h2⟩ := ih (k + 1) _ _ (by omega)
    refine ⟨st2, ?_⟩
    rw [h2, List.range'_succ, List.flatMap_cons, dfuCommand_trace, dfuCommand_trace]
    have haddr : planckStartAddress + ((k * planckBlockSize : Nat) : Int)
        = ((0x08000000 + k * 2048 : Nat) : Int) := by
      unfold planckStartAddress planckBlockSize
      push_cast
      ring
    rw [haddr, commandBuf_eraseAddress, commandBuf_setAddress]
    simp [blockRequests, dataWrite]
theorem chunk_eq_take (payload : List Nat) (k : Nat) :
    chunk payload k = (payload.drop (k * planckBlockSize)).take planckBlockSize := by
  unfold chunk
  rw [List.take_eq_take]
  simp only [List.length_drop]
  unfold planckBlockSize
  omega

theorem chunks_flatten_take (payload : List Nat) (n : Nat) :
    ((List.range n).map (chunk payload)).flatten = payload.take (n * planckBlockSize) := by
  induction n with
  | zero => simp
  | succ n ih =>
    have : (n + 1) * planckBlockSize = n * planckBlockSize + planckBlockSize := by ring
    rw [List.range_succ, List.map_append, List.flatten_append, ih, this, List.take_add]
    simp [chunk_eq_take]

theorem chunks_flatten (payload : List Nat) :
    ((List.range (blockCount payload.length)).map (chunk payload)).flatten = payload := by
  rw [chunks_flatten_take]
  apply List.take_of_length_le
  unfold blockCount planckBlockSize
  omega

theorem chunks_length_sum (payload : List Nat) :
    ((List.range (blockCount payload.length)).map (fun k => (chunk payload k).length)).sum
      = payload.length := by
  have h := congrArg List.length (chunks_flatten payload)
  rw [List.length_flatten, List.map_map] at h
  exact h

theorem blockRequests_dataWrites (payload : List Nat) (n : Nat) :
    ((List.range n).flatMap (blockRequests payload)).filter isDataWrite =
      (List.range n).map (fun k => dataWrite (chunk payload k)) := by
  induction n with
  | zero => simp
  | succ n ih =>
    rw [List.range_succ, List.flatMap_append, List.filter_append, ih, List.map_append]
    simp [blockRequests, isDataWrite, statusQuery, dataWrite]
theorem dfuReboot_trace (dev : Transport) (status : FlashState) (tr : List Ctl) :
    (dfuReboot dev status tr).trace =
      tr ++ List.replicate 3 statusQuery ++ [⟨33, 1, 2, 0, []⟩, statusQuery] := by
  unfold dfuReboot
  simp only
  rw [dfuGetStatus_trace, dfuPollTimeout_trace]
  simp

theorem dfuReboot_err (dev : Transport) (status : FlashState) (tr : List Ctl) :
    (dfuReboot dev status tr).err =
      (dev (tr ++ List.replicate 3 statusQuery ++ [⟨33, 1, 2, 0, []⟩]) statusQuery).err := by
  unfold dfuReboot
  simp only
  rw [dfuGetStatus_err, dfuPollTimeout_trace]

/-- What `execFlash` does once the image is read, has no suffix, the device is in bootloader
mode, is opened and its configuration is claimed. -/
theorem execFlash_session (fileData : List Nat) (h : 16 ≤ fileData.length)
    (htag : ¬ HasDfuTag fileData) (deviceData : FoundDevice)
    (hdfu : deviceData.Status.isDfu = true) (dev : Transport) :
    execFlash (.ok fileData) deviceData ⟨some dev, none⟩ =
      match (dev [] ⟨33, 4, 2, 0, []⟩).err with
      | some _ =>
        (.fatal .clearStatus { FlashState.zero with total := fileData.length },
          [⟨33, 4, 2, 0, []⟩])
      | none =>
        match (dfuCommand dev 0 eraseFlash
            { FlashState.zero with total := fileData.length, step := 1 }
            [⟨33, 4, 2, 0, []⟩]).err with
        | some _ =>
          (.fatal .eraseFlash (dfuCommand dev 0 eraseFlash
              { FlashState.zero with total := fileData.length, step := 1 }
              [⟨33, 4, 2, 0, []⟩]).status,
            (dfuCommand dev 0 eraseFlash
              { FlashState.zero with total := fileData.length, step := 1 }
              [⟨33, 4, 2, 0, []⟩]).trace)
        | none =>
          match blockLoop dev fileData fileData.length 0
              (dfuCommand dev 0 eraseFlash
                { FlashState.zero with total := fileData.length, step := 1 }
                [⟨33, 4, 2, 0, []⟩]).status
              (dfuCommand dev 0 eraseFlash
                { FlashState.zero with total := fileData.length, step := 1 }
                [⟨33, 4, 2, 0, []⟩]).trace with
          | (.fatal site st, tr) => (.fatal site st, tr)
          | (.panicked p, tr) => (.panicked p, tr)
          | (.finished st, tr) =>
            match (dfuReboot dev st tr).err with
            | some _ => (.fatal .reboot (dfuReboot dev st tr).status, (dfuReboot dev st tr).trace)
            | none =>
              (.returned { (dfuReboot dev st tr).status with step := 2, Complete := true },
                (dfuReboot dev st tr).trace) := by
  unfold execFlash
  simp only [extractSuffix_eq fileData h, if_neg htag, hdfu, dfuClearStatus]
  rfl
theorem scanLoop_isDfu (descs : List DeviceDesc) :
    ∀ devices, scanLoop descs = .ok devices →
      ∀ d ∈ devices, d.Status.isDfu = decide (d.Metadata.Name = "dfu") ∧
        getMetdata d.Description = some d.Metadata := by
  induction descs with
  | nil =>
    intro devices h d hd
    simp [scanLoop] at h
    subst h
    simp at hd
  | cons desc rest ih =>
    intro devices h d hd
    simp only [scanLoop] at h
    split at h
    · simp at h
    · rename_i metadata hm
      split at h
      · simp at h
      · rename_i ds hrest
        simp only [Except.ok.injEq] at h
        subst h
        rcases List.mem_cons.mp hd with rfl | hmem
        · exact ⟨rfl, hm⟩
        · exact ih ds hrest d hmem

/-- The whole session with a device none of whose transfers fails: `execFlash` returns with
`Complete = true` after the status clear, the whole-chip erase with its three status queries,
the rounds of the block loop, and the reboot sequence. -/
theorem execFlash_trace (fileData : List Nat) (h : 16 ≤ fileData.length)
    (htag : ¬ HasDfuTag fileData) (deviceData : FoundDevice)
    (hdfu : deviceData.Status.isDfu = true) (dev : Transport)
    (hok : ∀ h c, (dev h c).err = none) :
    ∃ st, execFlash (.ok fileData) deviceData ⟨some dev, none⟩ =
        (.returned st,
          [⟨33, 4, 2, 0, []⟩, ⟨33, 1, 0, 0, [0x41]⟩] ++ List.replicate 3 statusQuery ++
            (List.range (blockCount fileData.length)).flatMap (blockRequests fileData) ++
            List.replicate 3 statusQuery ++ [⟨33, 1, 2, 0, []⟩, statusQuery]) ∧
      st.Complete = true ∧ st.step = 2 := by
  rw [execFlash_session _ h htag _ hdfu dev]
  simp only [hok, dfuCommand_err_none dev hok]
  obtain ⟨st, hst⟩ := blockLoop_trace_from dev fileData hok (blockCount fileData.length) 0
    (dfuCommand dev 0 eraseFlash { FlashState.zero with total := fileData.length, step := 1 }
      [⟨33, 4, 2, 0, []⟩]).status
    (dfuCommand dev 0 eraseFlash { FlashState.zero with total := fileData.length, step := 1 }
      [⟨33, 4, 2, 0, []⟩]).trace rfl
  rw [Nat.zero_mul, ← List.range_eq_range'] at hst
  rw [hst]
  simp only [dfuReboot_err, hok]
  rw [dfuReboot_trace, dfuCommand_trace, commandBuf_eraseFlash]
  simp only [List.append_assoc, List.cons_append, List.nil_append]
  exact ⟨_, rfl, rfl, rfl⟩

/-! ## Properties of the flash session -/

/-- C5: with a device none of whose transfers fails, the block loop on a payload of `L` bytes
runs through and issues, after the transfers already made, the rounds `0 .. blockCount L - 1`
in order, where `blockCount L` is `L / 2048` rounded up.  Round `k` erases and sets the address
`0x08000000 + k * 2048` and writes the chunk `payload[k * 2048 .. min ((k + 1) * 2048) L)`.
Hence there are exactly `blockCount L` data writes, every chunk but possibly the last has 2048
bytes, no chunk is empty, the chunk lengths sum to `L`, and the chunks concatenated in order
are the payload. -/
theorem blockLoop_writes_chunks (dev : Transport) (payload : List Nat) (status : FlashState)
    (tr : List Ctl) (hok : ∀ h c, (dev h c).err = none) :
    (∃ st, blockLoop dev payload payload.length 0 status tr =
        (.finished st,
          tr ++ (List.range (blockCount payload.length)).flatMap (blockRequests payload))) ∧
      ((List.range (blockCount payload.length)).flatMap (blockRequests payload)).filter
          isDataWrite =
        (List.range (blockCount payload.length)).map (fun k => dataWrite (chunk payload k)) ∧
      (((List.range (blockCount payload.length)).flatMap (blockRequests payload)).filter
          isDataWrite).length = blockCount payload.length ∧
      (payload.length ≤ blockCount payload.length * 2048 ∧
        blockCount payload.length * 2048 < payload.length + 2048) ∧
      (∀ k, k + 1 < blockCount payload.length → (chunk payload k).length = 2048) ∧
      (∀ k, k < blockCount payload.length →
        0 < (chunk payload k).length ∧ (chunk payload k).length ≤ 2048) ∧
      ((List.range (blockCount payload.length)).map (fun k => (chunk payload k).length)).sum =
        payload.length ∧
      ((List.range (blockCount payload.length)).map (chunk payload)).flatten = payload := by
  refine ⟨?_, blockRequests_dataWrites payload _, ?_, ?_, ?_, ?_, chunks_length_sum payload,
    chunks_flatten payload⟩
  · obtain ⟨st, h⟩ := blockLoop_trace_from dev payload hok (blockCount payload.length) 0 status
      tr rfl
    rw [Nat.zero_mul, ← List.range_eq_range'] at h
    exact ⟨st, h⟩
  · rw [blockRequests_dataWrites, List.length_map, List.length_range]
  · unfold blockCount planckBlockSize
    omega
  · intro k hk
    rw [chunk_length]
    unfold blockCount planckBlockSize at *
    omega
  · intro k hk
    rw [chunk_length]
    unfold blockCount planckBlockSize at *
    omega

theorem blockLoop_writes_chunks_witness :
    (∀ h c, (okDevice h c).err = none) ∧
    ((∃ st, blockLoop okDevice payload5000 payload5000.length 0 FlashState.zero [] =
        (.finished st,
          [] ++ (List.range (blockCount payload5000.length)).flatMap (blockRequests payload5000))) ∧
      ((List.range (blockCount payload5000.length)).flatMap (blockRequests payload5000)).filter
          isDataWrite =
        (List.range (blockCount payload5000.length)).map (fun k => dataWrite (chunk payload5000 k)) ∧
      (((List.range (blockCount payload5000.length)).flatMap (blockRequests payload5000)).filter
          isDataWrite).length = blockCount payload5000.length ∧
      (payload5000.length ≤ blockCount payload5000.length * 2048 ∧
        blockCount payload5000.length * 2048 < payload5000.length + 2048) ∧
      (∀ k, k + 1 < blockCount payload5000.length → (chunk payload5000 k).length = 2048) ∧
      (∀ k, k < blockCount payload5000.length →
        0 < (chunk payload5000 k).length ∧ (chunk payload5000 k).length ≤ 2048) ∧
      ((List.range (blockCount payload5000.length)).map (fun k => (chunk payload5000 k).length)).sum =
        payload5000.length ∧
      ((List.range (blockCount payload5000.length)).map (chunk payload5000)).flatten = payload5000) :=
  ⟨fun _ _ => rfl,
    blockLoop_writes_chunks okDevice payload5000 FlashState.zero [] (fun _ _ => rfl)⟩

/-- The scenario of the specification: a payload of 5000 bytes is written in three chunks of
2048, 2048 and 904 bytes, at the addresses `0x08000000`, `0x08000800` and `0x08001000`. -/
theorem chunks_of_5000_bytes (payload : List Nat) (h : payload.length = 5000) :
    blockCount payload.length = 3 ∧
      (List.range (blockCount payload.length)).map (fun k => (chunk payload k).length) =
        [2048, 2048, 904] ∧
      (List.range (blockCount payload.length)).map (fun k => 0x08000000 + k * 2048) =
        [0x08000000, 0x08000800, 0x08001000] := by
  have h3 : blockCount payload.length = 3 := by rw [h]; rfl
  rw [h3]
  refine ⟨rfl, ?_, rfl⟩
  simp [List.range_succ, chunk_length, h, planckBlockSize]

/-- C8: for an image of at least 16 bytes without the tag and a device whose flag `isDfu` is
false, in particular a device returned by `ScanDevices` whose matched catalog entry is not
named `"dfu"`, `execFlash` issues no control transfer and ends at the not-in-dfu-mode exit with
`sent = 0` and `Complete = false`. -/
theorem execFlash_refuses_application_device (fileData : List Nat) (deviceData : FoundDevice)
    (usb : Usb) (h16 : 16 ≤ fileData.length) (htag : ¬ HasDfuTag fileData)
    (hdev : deviceData.Status.isDfu = false ∨
      ∃ attached devices, ScanDevices attached = .ok devices ∧ deviceData ∈ devices ∧
        deviceData.Metadata.Name ≠ "dfu") :
    ∃ st, execFlash (.ok fileData) deviceData usb = (.fatal .notInDfuMode st, []) ∧
      st.sent = 0 ∧ st.Complete = false := by
  have hflag : deviceData.Status.isDfu = false := by
    rcases hdev with h | ⟨attached, devices, hscan, hmem, hname⟩
    · exact h
    · rw [(scanLoop_isDfu _ devices hscan deviceData hmem).1]
      simpa using hname
  refine ⟨FlashState.zero, ?_, rfl, rfl⟩
  simp only [execFlash, extractSuffix_eq fileData h16, if_neg htag, hflag]
  rfl

theorem execFlash_refuses_application_device_witness :
    (16 ≤ rawImage16.length ∧ ¬ HasDfuTag rawImage16 ∧
      (keyboardDevice.Status.isDfu = false ∨
        ∃ attached devices, ScanDevices attached = .ok devices ∧ keyboardDevice ∈ devices ∧
          keyboardDevice.Metadata.Name ≠ "dfu")) ∧
    ∃ st, execFlash (.ok rawImage16) keyboardDevice ⟨some okDevice, none⟩ =
        (.fatal .notInDfuMode st, []) ∧
      st.sent = 0 ∧ st.Complete = false :=
  have hscan : ∃ attached devices, ScanDevices attached = .ok devices ∧
      keyboardDevice ∈ devices ∧ keyboardDevice.Metadata.Name ≠ "dfu" :=
    ⟨[⟨0x0483, 0xdf11⟩, ⟨0x1234, 0x5678⟩, ⟨0x3297, 0x1969⟩], [bootloaderDevice, keyboardDevice],
      by rfl, by decide, by decide⟩
  ⟨⟨by decide, by decide, Or.inr hscan⟩,
    execFlash_refuses_application_device rawImage16 keyboardDevice ⟨some okDevice, none⟩
      (by decide) (by decide) (Or.inr hscan)⟩

end Dfu
